import Mathlib

/-!
# Verification of the driver-intent fine-tuning notebooks

A shallow embedding of the repository's two experiment notebooks: the full
fine-tuning pipeline (`bert` notebook) and the QLoRA pipeline (`qlora.ipynb`,
whose file also retains an earlier draft run that aborted with
`KeyError: 'eval_loss'`).

The repository-authored functions (`compute_metrics`,
`print_trainable_parameters`, `find_all_linear_names`) are translated
directly from their notebook cells.  Configuration objects
(`TrainingArguments`, the model instantiations) are transcribed field by
field, and each notebook's cells are additionally modelled as a list of
dataflow steps (values read, values bound, path literals mentioned) so that
script-level properties — linear pipeline order, dataset handled read-only,
no concurrency primitives — can be stated and decided.

Library behaviour that the claims depend on (the trainer's best-checkpoint
metric lookup and best-model reloading) is modelled from the transformers
`trainer.py` excerpts captured verbatim in the notebook's traceback output.
-/

namespace DriverIntent

/-! ## compute_metrics (both notebooks)

```python
def compute_metrics(p):
    logits, labels = p.predictions, p.label_ids
    preds = logits.argmax(axis=-1)
    acc = accuracy_score(labels, preds)
    return {"accuracy": acc}
```
-/

/-- `numpy` row argmax: index of the first occurrence of the maximum.
`b` is the best value so far, `bi` its index, `i` the index of the head. -/
def argmaxAux : List ℚ → ℚ → ℕ → ℕ → ℕ
  | [], _, bi, _ => bi
  | x :: xs, b, bi, i =>
    if b < x then argmaxAux xs x i (i + 1) else argmaxAux xs b bi (i + 1)

/-- `row.argmax()` for one logits row (`logits.argmax(axis=-1)` applies this
to every row).  `numpy` rejects an empty row; the value at `[]` is never used
under the claims' hypotheses. -/
def argmax : List ℚ → ℕ
  | [] => 0
  | x :: xs => argmaxAux xs x 0 1

/-- Number of positions at which two equal-length sequences agree. -/
def countMatches : List ℕ → List ℕ → ℕ
  | a :: as, b :: bs => (if a = b then 1 else 0) + countMatches as bs
  | _, _ => 0

/-- `sklearn.metrics.accuracy_score(y_true, y_pred)` for hard label
predictions: the fraction of positions where they agree.  It raises on
inconsistent lengths and on empty input (mean of an empty array), embedded
here as `none`. -/
def accuracy_score (yTrue yPred : List ℕ) : Option ℚ :=
  if yTrue.length = yPred.length ∧ yTrue ≠ [] then
    some ((countMatches yTrue yPred : ℚ) / (yTrue.length : ℚ))
  else none

/-- The prediction object handed to the metrics callback: a matrix of logits
(one row per example) and the integer labels. -/
structure EvalPrediction where
  predictions : List (List ℚ)
  label_ids : List ℕ

/-- The notebooks' metrics callback.  (The `wandb.log` side effect carries no
data into the result and is omitted.) -/
def compute_metrics (p : EvalPrediction) : Option (List (String × ℚ)) :=
  let preds := p.predictions.map argmax
  match accuracy_score p.label_ids preds with
  | some acc => some [("accuracy", acc)]
  | none => none

/-- Spec-side count: the number of positions at which the argmax of the
logits row equals the corresponding label. -/
def correctPredictions (p : EvalPrediction) : ℕ :=
  (p.predictions.zip p.label_ids).countP fun q => decide (argmax q.1 = q.2)

/-! ## print_trainable_parameters (both notebooks)

```python
def print_trainable_parameters(model):
    trainable_params = 0
    all_param = 0
    for _, param in model.named_parameters():
        all_param += param.numel()
        if param.requires_grad:
            trainable_params += param.numel()
    print(f"trainable params: ... || all params: ... || trainable%: ...")
```
-/

/-- One named parameter as the counter sees it: its element count and its
`requires_grad` flag. -/
structure Param where
  numel : ℕ
  requires_grad : Bool
deriving DecidableEq

/-- `model.named_parameters()` viewed as a finite list. -/
abbrev NamedParameters := List (String × Param)

/-- One iteration of the counting loop: `acc` is
`(trainable_params, all_param)` so far. -/
def paramCountsStep (acc : ℕ × ℕ) (np : String × Param) : ℕ × ℕ :=
  let ap := acc.2 + np.2.numel
  let tp := if np.2.requires_grad then acc.1 + np.2.numel else acc.1
  (tp, ap)

/-- The accumulation loop of `print_trainable_parameters`:
`(trainable_params, all_param)` after the `for` loop. -/
def paramCounts (model : NamedParameters) : ℕ × ℕ :=
  model.foldl paramCountsStep (0, 0)

/-- `print_trainable_parameters`, returning the three reported quantities.
The report divides by `all_param`; with `all_param = 0` Python raises
`ZeroDivisionError`, embedded as `none`. -/
def print_trainable_parameters (model : NamedParameters) : Option (ℕ × ℕ × ℚ) :=
  let acc := paramCounts model
  if acc.2 = 0 then none
  else some (acc.1, acc.2, 100 * (acc.1 : ℚ) / (acc.2 : ℚ))

/-- Spec-side sum: element counts of exactly the parameters whose
`requires_grad` flag is set. -/
def trainable_params (model : NamedParameters) : ℕ :=
  ((model.filter fun np => np.2.requires_grad).map fun np => np.2.numel).sum

/-- Spec-side sum: element counts of all parameters. -/
def all_param (model : NamedParameters) : ℕ :=
  (model.map fun np => np.2.numel).sum

/-! ## find_all_linear_names (qlora.ipynb)

```python
def find_all_linear_names(model):
    cls = bnb.nn.Linear4bit
    lora_module_names = set()
    for name, module in model.named_modules():
        if isinstance(module, cls):
            names = name.split('.')
            lora_module_names.add(names[0] if len(names) == 1 else names[-1])
    if 'lm_head' in lora_module_names:  # needed for 16-bit
        lora_module_names.remove('lm_head')
    return list(lora_module_names)
```
-/

/-- One entry of `model.named_modules()`.  A dotted module name is embedded
as its list of dot-separated components (Python's `name.split('.')`, which is
never empty), together with whether the module is of the 4-bit linear class
`bnb.nn.Linear4bit`. -/
structure NamedModule where
  name : List String
  isLinear4bit : Bool
deriving DecidableEq

/-- `names[0] if len(names) == 1 else names[-1]` applied to the split name:
the base name of a module. -/
def baseName (names : List String) : String :=
  if names.length = 1 then names.headD "" else names.getLastD ""

/-- Adding an element to a Python `set`, with the set embedded as a
duplicate-free list in insertion order. -/
def addUnique (l : List String) (s : String) : List String :=
  if s ∈ l then l else l ++ [s]

/-- One iteration of the collection loop of `find_all_linear_names`. -/
def collectStep (acc : List String) (m : NamedModule) : List String :=
  if m.isLinear4bit then addUnique acc (baseName m.name) else acc

/-- The collection loop of `find_all_linear_names`. -/
def collectLinearNames (model : List NamedModule) : List String :=
  model.foldl collectStep []

/-- `find_all_linear_names` from the QLoRA notebook. -/
def find_all_linear_names (model : List NamedModule) : List String :=
  let lora_module_names := collectLinearNames model
  if "lm_head" ∈ lora_module_names then lora_module_names.erase "lm_head"
  else lora_module_names

/-! ## TrainingArguments

The three `TrainingArguments(...)` constructions: the bert notebook's, the
aborted draft's at the top of qlora.ipynb, and the final QLoRA run's.
Field defaults are the transformers defaults; `none` means the notebook left
the argument unset. -/

structure TrainingArguments where
  per_device_train_batch_size : ℕ
  per_device_eval_batch_size : ℕ
  gradient_accumulation_steps : ℕ := 1
  output_dir : String
  num_train_epochs : ℕ
  evaluation_strategy : String := "no"
  save_steps : ℕ := 500
  save_total_limit : ℕ := 0
  remove_unused_columns : Bool := true
  run_name : String := ""
  logging_dir : String := ""
  logging_steps : ℕ := 500
  load_best_model_at_end : Bool := false
  learning_rate : Option ℚ := none
  metric_for_best_model : Option String := none
  optim : Option String := none
  report_to : Option String := none

/-- The bert notebook's `TrainingArguments` cell. -/
def bertTrainingArguments : TrainingArguments where
  per_device_train_batch_size := 8
  per_device_eval_batch_size := 8
  output_dir := "../bert-models"
  num_train_epochs := 10
  evaluation_strategy := "steps"
  save_steps := 10
  save_total_limit := 4
  remove_unused_columns := false
  run_name := "run_name"
  logging_dir := "/logs"
  logging_steps := 10
  load_best_model_at_end := true
  report_to := some "wandb"
  learning_rate := some (3 / 100000)
  metric_for_best_model := some "accuracy"

/-- The `TrainingArguments` cell of the aborted draft run kept at the top of
qlora.ipynb: `load_best_model_at_end=True` with no `metric_for_best_model`. -/
def qloraDraftTrainingArguments : TrainingArguments where
  per_device_train_batch_size := 8
  per_device_eval_batch_size := 8
  output_dir := "/results"
  num_train_epochs := 1
  evaluation_strategy := "steps"
  save_steps := 10
  save_total_limit := 2
  remove_unused_columns := false
  run_name := "run_name"
  logging_dir := "/logs"
  logging_steps := 10
  load_best_model_at_end := true

/-- The final QLoRA run's `TrainingArguments` cell. -/
def qloraTrainingArguments : TrainingArguments where
  per_device_train_batch_size := 8
  per_device_eval_batch_size := 8
  gradient_accumulation_steps := 8
  output_dir := "../qlora-models"
  num_train_epochs := 8
  evaluation_strategy := "steps"
  save_steps := 10
  save_total_limit := 5
  remove_unused_columns := false
  run_name := "run_name"
  logging_dir := "/logs"
  logging_steps := 10
  load_best_model_at_end := true
  learning_rate := some (5 / 10000)
  optim := some "paged_adamw_8bit"
  report_to := some "wandb"
  metric_for_best_model := some "accuracy"

/-! ## The trainer's best-checkpoint bookkeeping

Modelled from the transformers `trainer.py` excerpt captured verbatim in the
qlora.ipynb traceback (`Trainer._save_checkpoint`): the metric to check is
`args.metric_for_best_model` — defaulted to `"loss"` by `TrainingArguments`
when `load_best_model_at_end` is set without one, as the traceback's
`metric_to_check = 'eval_loss'` shows — prefixed with `"eval_"` when needed,
then looked up in the evaluation metrics dictionary (a missing key raises
`KeyError`), and the best checkpoint is updated when `operator(metric_value,
best_metric)` holds, where `operator` is `np.greater` iff
`greater_is_better`. -/

/-- The key the checkpoint-selection step looks up in the evaluation
metrics. -/
def metric_to_check (args : TrainingArguments) : String :=
  let m := match args.metric_for_best_model with
    | some s => s
    | none => "loss"
  if m.startsWith "eval_" then m else "eval_" ++ m

/-- `greater_is_better`: transformers defaults it to `True` exactly when
`metric_for_best_model` is set to something other than the loss. -/
def greater_is_better (args : TrainingArguments) : Bool :=
  match args.metric_for_best_model with
  | some s => if s = "loss" ∨ s = "eval_loss" then false else true
  | none => false

/-- Python dictionary lookup `metrics[key]` as an `Option`. -/
def lookupMetric (metrics : List (String × ℚ)) (key : String) : Option ℚ :=
  match metrics.find? (fun kv => kv.1 == key) with
  | some kv => some kv.2
  | none => none

/-- The `metric_value = metrics[metric_to_check]` line of
`Trainer._save_checkpoint`: a missing key raises `KeyError`, embedded as
`Except.error`. -/
def saveCheckpointMetric (args : TrainingArguments) (metrics : List (String × ℚ)) :
    Except String ℚ :=
  match lookupMetric metrics (metric_to_check args) with
  | some v => Except.ok v
  | none => Except.error ("KeyError: " ++ metric_to_check args)

/-- `trainer.train()` reaching its first checkpoint save under evaluation
results `metrics`: the notebooks install no exception handler around the
call, so a `KeyError` from the metric lookup propagates to the caller. -/
def trainer_train (args : TrainingArguments) (metrics : List (String × ℚ)) :
    Except String ℚ :=
  saveCheckpointMetric args metrics

/-- One recorded evaluation during a training run: the global step of the
checkpoint and its accuracy metric. -/
structure EvalRecord where
  step : ℕ
  accuracy : ℚ
deriving DecidableEq

/-- The best-checkpoint update of `Trainer._save_checkpoint`: replace the
best so far when `operator(metric_value, best_metric)` holds, with strict
`np.greater` (resp. `np.less`) as the operator. -/
def updateBest (gib : Bool) (best : Option EvalRecord) (r : EvalRecord) :
    Option EvalRecord :=
  match best with
  | none => some r
  | some b =>
    if (if gib then b.accuracy < r.accuracy else r.accuracy < b.accuracy)
    then some r else some b

/-- The best checkpoint tracked over a run's recorded evaluations. -/
def bestCheckpoint (args : TrainingArguments) (history : List EvalRecord) :
    Option EvalRecord :=
  history.foldl (updateBest (greater_is_better args)) none

/-- The model weights in `model` after `trainer.train()` returns: with
`load_best_model_at_end` the trainer reloads the tracked best checkpoint,
otherwise the weights are those of the final training step. -/
def finalModel (args : TrainingArguments) (history : List EvalRecord)
    (last : EvalRecord) : EvalRecord :=
  if args.load_best_model_at_end then (bestCheckpoint args history).getD last
  else last

/-- The bert notebook's recorded evaluation table (step, accuracy), as
displayed in the `trainer.train()` cell output. -/
def bertRunHistory : List EvalRecord :=
  [⟨10, 655 / 1000⟩, ⟨20, 805 / 1000⟩, ⟨30, 950 / 1000⟩, ⟨40, 990 / 1000⟩,
   ⟨50, 985 / 1000⟩, ⟨60, 995 / 1000⟩, ⟨70, 990 / 1000⟩, ⟨80, 1⟩, ⟨90, 1⟩,
   ⟨100, 1⟩]

/-- `model_path = "../bert-models/best_model"` from the bert notebook's save
cell. -/
def bertModelPath : String := "../bert-models/best_model"

/-- `model_path = "../qlora-models/best_model"` from the QLoRA notebook's
save cell. -/
def qloraModelPath : String := "../qlora-models/best_model"

/-! ## Model instantiations -/

/-- One `from_pretrained` model construction as the notebooks configure it. -/
structure ModelInstantiation where
  notebook : String
  checkpoint : String
  num_labels : ℕ
  usesQuantizationConfig : Bool
deriving DecidableEq

/-- Every classification-model instantiation across the notebooks: the bert
notebook's `BertForSequenceClassification.from_pretrained(model_name,
num_labels=5)`, the draft's
`BertForSequenceClassification.from_pretrained(model_name, num_labels=5,
quantization_config=bnb_config)`, and the final QLoRA run's
`AutoModelForSequenceClassification.from_pretrained(model_id, num_labels=5,
quantization_config=bnb_config, device_map=...)`. -/
def modelInstantiations : List ModelInstantiation :=
  [⟨"bert", "bert-base-uncased", 5, false⟩,
   ⟨"qlora-draft", "bert-large-uncased", 5, true⟩,
   ⟨"qlora", "bert-large-uncased", 5, true⟩]

/-- The dataset's integer class labels, `{0..4}`. -/
def datasetClassLabels : List ℕ := [0, 1, 2, 3, 4]

/-! ## Statement-level dataflow model of the notebook scripts

Each executed notebook statement is a `Step`: which values it reads, which
names it binds, which path literals for the data entities (dataset directory,
checkpoint directory) it mentions, and flags for constructs the scripts never
use (exception handling, retries, synchronization, thread or process
creation, resource-lifetime management).  Straight transcription of the
cells, in execution order. -/

/-- The values the notebook statements bind and consume. -/
inductive Value
  | wandbRun | pathToRetrieve | datasetDict | modelName | bnbConfig | model
  | printFn | computeMetricsFn | findLinearFn | modulesList | loraConfigA
  | peftConfig | callback | trainingArgs | trainer | trainOutput
  | targetModules | modelPath | checkpointOnDisk
deriving DecidableEq

/-- What kind of statement a step is. -/
inductive StepKind
  | imports | initTracking | definePath | defineConst | defineHelper
  | callHelper | loadDataset | constructQuantConfig | instantiateModel
  | prepareModel | constructLoraConfig | wrapAdapter | constructCallback
  | constructArgs | constructTrainer | train | saveCheckpoint
deriving DecidableEq

/-- The concurrency- and resource-relevant configuration quantities the spec
names. -/
inductive ConcurrencyKey
  | perDeviceTrainBatchSize | perDeviceEvalBatchSize | gradientAccumulationSteps
deriving DecidableEq

/-- One executed notebook statement. -/
structure Step where
  kind : StepKind
  reads : List Value := []
  writes : List Value := []
  /-- Path literals in the statement that denote the dataset or checkpoint
  data entities. -/
  entityPaths : List String := []
  /-- Whether the statement wraps anything in `try/except`. -/
  catchesException : Bool := false
  /-- Whether the statement retries or recovers from a failure. -/
  performsRetry : Bool := false
  /-- Whether the statement mutates the loaded dataset or a written
  checkpoint in place. -/
  mutatesEntity : Bool := false
  /-- Whether the statement uses a synchronization primitive. -/
  performsSync : Bool := false
  /-- Whether the statement creates a thread or a process. -/
  spawnsThreadOrProcess : Bool := false
  /-- Whether the statement manages a resource lifetime (open/close,
  allocate/free, context manager). -/
  managesResourceLifetime : Bool := false
  /-- Concurrency-relevant quantities appearing in the statement. -/
  concurrencyConfig : List (ConcurrencyKey × ℕ) := []

/-- Placeholder used only as the `List.getD` default. -/
def emptyStep : Step := { kind := .imports }

/-- The bert notebook's executed statements, in order. -/
def bertSteps : List Step :=
  [ { kind := .imports },
    { kind := .initTracking, writes := [.wandbRun] },
    { kind := .definePath, writes := [.pathToRetrieve],
      entityPaths := ["../tokenized_dataset"] },
    { kind := .loadDataset, reads := [.pathToRetrieve],
      writes := [.datasetDict] },
    { kind := .defineConst, writes := [.modelName] },
    { kind := .instantiateModel, reads := [.modelName], writes := [.model] },
    { kind := .defineHelper, writes := [.printFn] },
    { kind := .callHelper, reads := [.printFn, .model] },
    { kind := .defineHelper, writes := [.computeMetricsFn] },
    { kind := .constructCallback, writes := [.callback] },
    { kind := .constructArgs, writes := [.trainingArgs],
      entityPaths := ["../bert-models"],
      concurrencyConfig := [(.perDeviceTrainBatchSize, 8),
                            (.perDeviceEvalBatchSize, 8)] },
    { kind := .constructTrainer,
      reads := [.model, .trainingArgs, .datasetDict, .computeMetricsFn,
                .callback],
      writes := [.trainer] },
    { kind := .train, reads := [.trainer], writes := [.trainOutput] },
    { kind := .definePath, writes := [.modelPath],
      entityPaths := [bertModelPath] },
    { kind := .saveCheckpoint, reads := [.model, .modelPath],
      writes := [.checkpointOnDisk] } ]

/-- The executed statements of the aborted draft run kept at the top of
qlora.ipynb, in order (its `trainer.train()` raised `KeyError: 'eval_loss'`;
the draft has no save cell). -/
def qloraDraftSteps : List Step :=
  [ { kind := .imports },
    { kind := .definePath, writes := [.pathToRetrieve],
      entityPaths := ["../tokenized_dataset"] },
    { kind := .loadDataset, reads := [.pathToRetrieve],
      writes := [.datasetDict] },
    { kind := .constructQuantConfig, writes := [.bnbConfig] },
    { kind := .defineHelper, writes := [.printFn] },
    { kind := .defineConst, writes := [.modelName] },
    { kind := .instantiateModel, reads := [.modelName, .bnbConfig],
      writes := [.model] },
    { kind := .callHelper, reads := [.printFn, .model] },
    { kind := .defineConst, writes := [.targetModules] },
    { kind := .constructLoraConfig, writes := [.peftConfig] },
    { kind := .wrapAdapter, reads := [.model, .peftConfig],
      writes := [.model] },
    { kind := .callHelper, reads := [.printFn, .model] },
    { kind := .defineHelper, writes := [.computeMetricsFn] },
    { kind := .constructArgs, writes := [.trainingArgs],
      entityPaths := ["/results"],
      concurrencyConfig := [(.perDeviceTrainBatchSize, 8),
                            (.perDeviceEvalBatchSize, 8)] },
    { kind := .constructTrainer,
      reads := [.model, .trainingArgs, .datasetDict, .computeMetricsFn],
      writes := [.trainer] },
    { kind := .train, reads := [.trainer], writes := [.trainOutput] } ]

/-- The final QLoRA pipeline's executed statements, in order. -/
def qloraSteps : List Step :=
  [ { kind := .imports },
    { kind := .initTracking, writes := [.wandbRun] },
    { kind := .definePath, writes := [.pathToRetrieve],
      entityPaths := ["../tokenized_dataset"] },
    { kind := .loadDataset, reads := [.pathToRetrieve],
      writes := [.datasetDict] },
    { kind := .defineHelper, writes := [.printFn] },
    { kind := .defineConst, writes := [.modelName] },
    { kind := .constructQuantConfig, writes := [.bnbConfig] },
    { kind := .instantiateModel, reads := [.modelName, .bnbConfig],
      writes := [.model] },
    { kind := .callHelper, reads := [.printFn, .model] },
    { kind := .prepareModel, reads := [.model], writes := [.model] },
    { kind := .defineHelper, writes := [.findLinearFn] },
    { kind := .callHelper, reads := [.findLinearFn, .model],
      writes := [.modulesList] },
    { kind := .constructLoraConfig, reads := [.modulesList],
      writes := [.loraConfigA] },
    { kind := .constructLoraConfig, writes := [.peftConfig] },
    { kind := .wrapAdapter, reads := [.model, .peftConfig],
      writes := [.model] },
    { kind := .callHelper, reads := [.model] },
    { kind := .defineHelper, writes := [.computeMetricsFn] },
    { kind := .constructCallback, writes := [.callback] },
    { kind := .constructArgs, writes := [.trainingArgs],
      entityPaths := ["../qlora-models"],
      concurrencyConfig := [(.perDeviceTrainBatchSize, 8),
                            (.perDeviceEvalBatchSize, 8),
                            (.gradientAccumulationSteps, 8)] },
    { kind := .constructTrainer,
      reads := [.model, .trainingArgs, .datasetDict, .computeMetricsFn,
                .callback],
      writes := [.trainer] },
    { kind := .train, reads := [.trainer], writes := [.trainOutput] },
    { kind := .definePath, writes := [.modelPath],
      entityPaths := [qloraModelPath] },
    { kind := .saveCheckpoint, reads := [.model, .modelPath],
      writes := [.checkpointOnDisk] } ]

/-- The values bound by the steps before index `i`. -/
def producedBefore (steps : List Step) (i : ℕ) : List Value :=
  ((steps.take i).map Step.writes).flatten

/-- Every step consumes only values produced by earlier steps. -/
abbrev consumesOnlyEarlier (steps : List Step) : Prop :=
  ∀ i ∈ List.range steps.length,
    ∀ v ∈ (steps.getD i emptyStep).reads, v ∈ producedBefore steps i

/-- The six spec-visible pipeline step kinds. -/
def coreKind : StepKind → Bool
  | .loadDataset | .instantiateModel | .wrapAdapter | .constructTrainer
  | .train | .saveCheckpoint => true
  | _ => false

/-- A script's pipeline, restricted to the spec's six step kinds, in
execution order. -/
def pipelineOrder (steps : List Step) : List StepKind :=
  (steps.map Step.kind).filter coreKind

/-- The dataset object is bound once, by the load step, never mutated, and
consumed only by the `Trainer` constructor; the checkpoint entity is written
only by the save step. -/
abbrev datasetReadOnly (steps : List Step) : Prop :=
  ((steps.filter fun s => decide (Value.datasetDict ∈ s.writes)).map Step.kind
      = [.loadDataset])
  ∧ (∀ s ∈ steps, Value.datasetDict ∈ s.reads → s.kind = .constructTrainer)
  ∧ (∀ s ∈ steps, s.mutatesEntity = false)
  ∧ (∀ s ∈ steps, Value.checkpointOnDisk ∈ s.writes →
      s.kind = .saveCheckpoint)

/-- All the data-entity path literals a script mentions, in order. -/
def entityPathsOf (steps : List Step) : List String :=
  (steps.map Step.entityPaths).flatten

/-- No step catches an exception or retries/recovers from a failure. -/
abbrev noFailureHandling (steps : List Step) : Prop :=
  ∀ s ∈ steps, s.catchesException = false ∧ s.performsRetry = false

/-- No step synchronizes, spawns a thread or process, or manages a resource
lifetime, and any concurrency-relevant quantity occurs only in a
`TrainingArguments` construction. -/
abbrev noConcurrencyPrimitives (steps : List Step) : Prop :=
  ∀ s ∈ steps,
    s.performsSync = false ∧ s.spawnsThreadOrProcess = false
    ∧ s.managesResourceLifetime = false
    ∧ (s.concurrencyConfig = [] ∨ s.kind = .constructArgs)

/-- A small concrete module list for exercising `find_all_linear_names`:
one 4-bit linear attention projection, a 4-bit `lm_head`, and a
non-quantized classifier. -/
def demoModules : List NamedModule :=
  [⟨["bert", "encoder", "layer", "0", "attention", "self", "query"], true⟩,
   ⟨["lm_head"], true⟩,
   ⟨["classifier"], false⟩]

/-! ## Helper lemmas -/

theorem countMatches_map_argmax (rows : List (List ℚ)) :
    ∀ labels : List ℕ,
      countMatches labels (rows.map argmax) =
        (rows.zip labels).countP fun q => decide (argmax q.1 = q.2) := by
  induction rows with
  | nil => intro labels; cases labels <;> simp [countMatches]
  | cons r rs ih =>
    intro labels
    cases labels with
    | nil => simp [countMatches]
    | cons l ls =>
      simp only [List.map_cons, countMatches, List.zip_cons_cons,
        List.countP_cons, ih ls]
      by_cases h : argmax r = l
      · simp [h, Nat.add_comm]
      · have h2 : ¬(l = argmax r) := fun hh => h hh.symm
        simp [h, h2]

theorem foldl_paramCountsStep (model : NamedParameters) :
    ∀ t a : ℕ,
      model.foldl paramCountsStep (t, a) =
        (t + trainable_params model, a + all_param model) := by
  induction model with
  | nil => intro t a; simp [trainable_params, all_param]
  | cons hd tl ih =>
    intro t a
    simp only [List.foldl_cons, paramCountsStep]
    cases hreq : hd.2.requires_grad <;>
      simp [hreq, ih, trainable_params, all_param, List.filter_cons,
        Prod.ext_iff] <;> omega

theorem paramCounts_eq (model : NamedParameters) :
    paramCounts model = (trainable_params model, all_param model) := by
  simpa using foldl_paramCountsStep model 0 0

theorem mem_addUnique (l : List String) (s x : String) :
    x ∈ addUnique l s ↔ x ∈ l ∨ x = s := by
  unfold addUnique
  by_cases h : s ∈ l
  · simp only [if_pos h]
    constructor
    · exact Or.inl
    · rintro (hx | rfl) <;> [exact hx; exact h]
  · simp [if_neg h]

theorem nodup_addUnique (l : List String) (s : String) (h : l.Nodup) :
    (addUnique l s).Nodup := by
  unfold addUnique
  by_cases hs : s ∈ l
  · simpa [if_pos hs] using h
  · simp [if_neg hs, List.nodup_append, h, hs]

theorem mem_foldl_collectStep (model : List NamedModule) :
    ∀ (acc : List String) (x : String),
      x ∈ model.foldl collectStep acc ↔
        x ∈ acc ∨ ∃ m ∈ model, m.isLinear4bit = true ∧ baseName m.name = x := by
  induction model with
  | nil => intro acc x; simp
  | cons hd tl ih =>
    intro acc x
    simp only [List.foldl_cons, collectStep]
    cases hl : hd.isLinear4bit
    · rw [if_neg (by simp [hl]), ih]
      simp [hl]
    · rw [if_pos (by simp), ih]
      simp only [mem_addUnique, List.mem_cons]
      constructor
      · rintro ((hx | rfl) | ⟨m, hm, hlin, hbn⟩)
        · exact Or.inl hx
        · exact Or.inr ⟨hd, Or.inl rfl, hl, rfl⟩
        · exact Or.inr ⟨m, Or.inr hm, hlin, hbn⟩
      · rintro (hx | ⟨m, (rfl | hm), hlin, hbn⟩)
        · exact Or.inl (Or.inl hx)
        · exact Or.inl (Or.inr hbn.symm)
        · exact Or.inr ⟨m, hm, hlin, hbn⟩

theorem nodup_foldl_collectStep (model : List NamedModule) :
    ∀ acc : List String, acc.Nodup → (model.foldl collectStep acc).Nodup := by
  induction model with
  | nil => intro acc h; simpa using h
  | cons hd tl ih =>
    intro acc h
    simp only [List.foldl_cons, collectStep]
    by_cases hl : hd.isLinear4bit = true
    · rw [if_pos hl]; exact ih _ (nodup_addUnique _ _ h)
    · rw [if_neg hl]; exact ih _ h

theorem foldl_updateBest_max (history : List EvalRecord) :
    ∀ b0 : EvalRecord,
      ∃ b, history.foldl (updateBest true) (some b0) = some b
        ∧ (b = b0 ∨ b ∈ history) ∧ b0.accuracy ≤ b.accuracy
        ∧ ∀ r ∈ history, r.accuracy ≤ b.accuracy := by
  induction history with
  | nil => intro b0; exact ⟨b0, rfl, Or.inl rfl, le_refl _, by simp⟩
  | cons hd tl ih =>
    intro b0
    simp only [List.foldl_cons, updateBest, if_true]
    by_cases hlt : b0.accuracy < hd.accuracy
    · rw [if_pos hlt]
      obtain ⟨b, hb, hmem, hle, hall⟩ := ih hd
      refine ⟨b, hb, ?_, le_trans (le_of_lt hlt) hle, ?_⟩
      · rcases hmem with rfl | h
        · exact Or.inr (List.mem_cons_self _ _)
        · exact Or.inr (List.mem_cons_of_mem _ h)
      · intro r hr
        rcases List.mem_cons.mp hr with rfl | hr
        · exact hle
        · exact hall r hr
    · rw [if_neg hlt]
      obtain ⟨b, hb, hmem, hle, hall⟩ := ih b0
      refine ⟨b, hb, ?_, hle, ?_⟩
      · rcases hmem with rfl | h
        · exact Or.inl rfl
        · exact Or.inr (List.mem_cons_of_mem _ h)
      · intro r hr
        rcases List.mem_cons.mp hr with rfl | hr
        · exact le_trans (le_of_not_lt hlt) hle
        · exact hall r hr

theorem bestCheckpoint_max (args : TrainingArguments)
    (hg : greater_is_better args = true) (history : List EvalRecord)
    (h : history ≠ []) :
    ∃ b, bestCheckpoint args history = some b ∧ b ∈ history
      ∧ ∀ r ∈ history, r.accuracy ≤ b.accuracy := by
  cases history with
  | nil => exact absurd rfl h
  | cons hd tl =>
    unfold bestCheckpoint
    rw [hg]
    have h1 : updateBest true none hd = some hd := rfl
    simp only [List.foldl_cons, h1]
    obtain ⟨b, hb, hmem, hle, hall⟩ := foldl_updateBest_max tl hd
    refine ⟨b, hb, ?_, ?_⟩
    · rcases hmem with rfl | h
      · exact List.mem_cons_self _ _
      · exact List.mem_cons_of_mem _ h
    · intro r hr
      rcases List.mem_cons.mp hr with rfl | hr
      · exact hle
      · exact hall r hr

theorem finalModel_max (args : TrainingArguments)
    (hl : args.load_best_model_at_end = true)
    (hg : greater_is_better args = true)
    (history : List EvalRecord) (last : EvalRecord) (h : history ≠ []) :
    finalModel args history last ∈ history
    ∧ ∀ r ∈ history, r.accuracy ≤ (finalModel args history last).accuracy := by
  obtain ⟨b, hb, hmem, hall⟩ := bestCheckpoint_max args hg history h
  unfold finalModel
  simp only [hl, if_pos, hb, Option.getD_some]
  exact ⟨hmem, hall⟩

/-! ## Claim theorems -/

/-- C1: for every prediction object whose predictions form a matrix of
logits and whose label_ids form a vector of the same length,
`compute_metrics` returns a dictionary mapping "accuracy" to the number of
positions at which the argmax of the logits row equals the corresponding
label, divided by the total number of labels. -/
theorem compute_metrics_accuracy (p : EvalPrediction)
    (hlen : p.predictions.length = p.label_ids.length)
    (hne : p.label_ids ≠ []) :
    compute_metrics p =
      some [("accuracy",
        (correctPredictions p : ℚ) / (p.label_ids.length : ℚ))] := by
  have hcond : p.label_ids.length = (p.predictions.map argmax).length
      ∧ p.label_ids ≠ [] := ⟨by simp [hlen], hne⟩
  simp only [compute_metrics, accuracy_score, if_pos hcond,
    countMatches_map_argmax, correctPredictions]

/-- Witness for C1 at a concrete two-row prediction object. -/
theorem compute_metrics_accuracy_witness :
    compute_metrics ⟨[[1, 2], [3, 1]], [1, 0]⟩ =
      some [("accuracy",
        (correctPredictions ⟨[[1, 2], [3, 1]], [1, 0]⟩ : ℚ) /
          ((([1, 0] : List ℕ).length : ℕ) : ℚ))] :=
  compute_metrics_accuracy ⟨[[1, 2], [3, 1]], [1, 0]⟩ rfl (by simp)

/-- C2: for every model with at least one counted element,
`print_trainable_parameters` computes `trainable_params` as the sum of
element counts of exactly the parameters with `requires_grad` set,
`all_param` as the sum of all element counts, and reports the percentage
`100 * trainable_params / all_param`. -/
theorem print_trainable_parameters_reports_sums (model : NamedParameters)
    (h : all_param model ≠ 0) :
    print_trainable_parameters model =
      some (trainable_params model, all_param model,
        100 * (trainable_params model : ℚ) / (all_param model : ℚ)) := by
  simp [print_trainable_parameters, paramCounts_eq, h]

/-- Witness for C2 at a two-parameter model. -/
theorem print_trainable_parameters_reports_sums_witness :
    print_trainable_parameters
        [("weight", (⟨4, true⟩ : Param)), ("bias", (⟨6, false⟩ : Param))] =
      some (4, 10, 40) := by
  have h := print_trainable_parameters_reports_sums
    [("weight", (⟨4, true⟩ : Param)), ("bias", (⟨6, false⟩ : Param))]
    (by simp [all_param])
  rw [h]
  norm_num [trainable_params, all_param]

/-- C9: `print_trainable_parameters` divides by the accumulated total with
no guard: when some parameter has a positive element count the reported
percentage is well-defined, and on an empty parameter list (or all element
counts zero) the division raises `ZeroDivisionError` because `all_param` is
0. -/
theorem print_trainable_parameters_division_guard (model : NamedParameters) :
    ((∃ np ∈ model, 0 < np.2.numel) →
      print_trainable_parameters model =
        some (trainable_params model, all_param model,
          100 * (trainable_params model : ℚ) / (all_param model : ℚ)))
    ∧ ((model = [] ∨ ∀ np ∈ model, np.2.numel = 0) →
      print_trainable_parameters model = none) := by
  constructor
  · rintro ⟨np, hmem, hpos⟩
    apply print_trainable_parameters_reports_sums
    intro h0
    rw [all_param, List.sum_eq_zero_iff] at h0
    have := h0 np.2.numel (List.mem_map.mpr ⟨np, hmem, rfl⟩)
    omega
  · intro h
    have h0 : all_param model = 0 := by
      rcases h with rfl | h
      · simp [all_param]
      · rw [all_param]
        apply List.sum_eq_zero
        intro x hx
        obtain ⟨np, hnp, rfl⟩ := List.mem_map.mp hx
        exact h np hnp
    simp [print_trainable_parameters, paramCounts_eq, h0]

/-- Witness for C9: a defined report for a positive element count, and the
guard case at the empty model. -/
theorem print_trainable_parameters_division_guard_witness :
    print_trainable_parameters [("weight", (⟨3, true⟩ : Param))] =
      some (3, 3, 100)
    ∧ print_trainable_parameters ([] : NamedParameters) = none := by
  constructor
  · have h := (print_trainable_parameters_division_guard
      [("weight", (⟨3, true⟩ : Param))]).1
      ⟨("weight", (⟨3, true⟩ : Param)), by simp, by norm_num⟩
    rw [h]
    norm_num [trainable_params, all_param]
  · exact (print_trainable_parameters_division_guard
      ([] : NamedParameters)).2 (Or.inl rfl)

/-- C10: `find_all_linear_names` never returns 'lm_head'; each element is
the base (last dot-separated) name of some 4-bit linear module, collected
without duplicates, with any 'lm_head' entry removed; and every 4-bit linear
module's base name other than 'lm_head' is collected. -/
theorem find_all_linear_names_no_lm_head (model : List NamedModule) :
    "lm_head" ∉ find_all_linear_names model
    ∧ (find_all_linear_names model).Nodup
    ∧ (∀ s ∈ find_all_linear_names model,
        ∃ m ∈ model, m.isLinear4bit = true ∧ baseName m.name = s)
    ∧ (∀ m ∈ model, m.isLinear4bit = true → baseName m.name ≠ "lm_head" →
        baseName m.name ∈ find_all_linear_names model) := by
  have hnd : (collectLinearNames model).Nodup :=
    nodup_foldl_collectStep model [] (by simp)
  have hmem : ∀ x, x ∈ collectLinearNames model ↔
      ∃ m ∈ model, m.isLinear4bit = true ∧ baseName m.name = x := by
    intro x
    simpa using mem_foldl_collectStep model [] x
  unfold find_all_linear_names
  by_cases h : "lm_head" ∈ collectLinearNames model
  · rw [if_pos h]
    refine ⟨?_, hnd.erase _, ?_, ?_⟩
    · intro hc
      exact ((hnd.mem_erase_iff).mp hc).1 rfl
    · intro s hs
      exact (hmem s).mp ((hnd.mem_erase_iff).mp hs).2
    · intro m hm hlin hbn
      exact (hnd.mem_erase_iff).mpr ⟨hbn, (hmem _).mpr ⟨m, hm, hlin, rfl⟩⟩
  · rw [if_neg h]
    refine ⟨h, hnd, ?_, ?_⟩
    · intro s hs
      exact (hmem s).mp hs
    · intro m hm hlin _
      exact (hmem _).mpr ⟨m, hm, hlin, rfl⟩

/-- Witness for C10 at a concrete module list: 'lm_head' is excluded and the
attention projection's base name is collected. -/
theorem find_all_linear_names_no_lm_head_witness :
    "lm_head" ∉ find_all_linear_names demoModules
    ∧ baseName ["bert", "encoder", "layer", "0", "attention", "self", "query"]
        ∈ find_all_linear_names demoModules := by
  refine ⟨(find_all_linear_names_no_lm_head demoModules).1, ?_⟩
  exact (find_all_linear_names_no_lm_head demoModules).2.2.2
    ⟨["bert", "encoder", "layer", "0", "attention", "self", "query"], true⟩
    (by simp [demoModules]) rfl (by simp [baseName])

/-- C3: the draft QLoRA configuration sets `load_best_model_at_end=True`
without `metric_for_best_model`; whenever the evaluation results lack the
'eval_loss' key, `trainer.train()` raises `KeyError: 'eval_loss'`, and it
propagates uncaught: no step of the draft script catches, retries, or
recovers. -/
theorem qlora_draft_train_keyerror (metrics : List (String × ℚ))
    (h : lookupMetric metrics "eval_loss" = none) :
    qloraDraftTrainingArguments.load_best_model_at_end = true
    ∧ qloraDraftTrainingArguments.metric_for_best_model = none
    ∧ trainer_train qloraDraftTrainingArguments metrics
        = Except.error "KeyError: eval_loss"
    ∧ noFailureHandling qloraDraftSteps := by
  have hkey : metric_to_check qloraDraftTrainingArguments = "eval_loss" := by
    decide
  refine ⟨rfl, rfl, ?_, by decide⟩
  rw [trainer_train, saveCheckpointMetric, hkey, h]
  rfl

/-- Witness for C3 at an empty evaluation-metrics dictionary. -/
theorem qlora_draft_train_keyerror_witness :
    trainer_train qloraDraftTrainingArguments [] =
      Except.error "KeyError: eval_loss" :=
  (qlora_draft_train_keyerror [] rfl).2.2.1

/-- C4: every classification model the notebooks instantiate is configured
with exactly five output classes, and each dataset class label in {0..4} is
a valid class index for it. -/
theorem models_configured_five_classes :
    ∀ m ∈ modelInstantiations,
      m.num_labels = 5 ∧ ∀ label ∈ datasetClassLabels, label < m.num_labels := by
  decide

/-- Witness for C4 at the bert notebook's instantiation. -/
theorem models_configured_five_classes_witness :
    (⟨"bert", "bert-base-uncased", 5, false⟩ : ModelInstantiation).num_labels
      = 5 :=
  (models_configured_five_classes
    ⟨"bert", "bert-base-uncased", 5, false⟩ (by decide)).1

/-- C5: both completed runs set `load_best_model_at_end=True` with
`metric_for_best_model="accuracy"` and persist to
'../bert-models/best_model' resp. '../qlora-models/best_model'; for every
nonempty evaluation history the model saved at the end is a recorded
checkpoint of maximal accuracy — in the bert notebook's actual history the
step-80 checkpoint, not the final training step. -/
theorem best_accuracy_checkpoint_persisted (history : List EvalRecord)
    (last : EvalRecord) (h : history ≠ []) :
    bertTrainingArguments.load_best_model_at_end = true
    ∧ bertTrainingArguments.metric_for_best_model = some "accuracy"
    ∧ qloraTrainingArguments.load_best_model_at_end = true
    ∧ qloraTrainingArguments.metric_for_best_model = some "accuracy"
    ∧ bertModelPath = "../bert-models/best_model"
    ∧ qloraModelPath = "../qlora-models/best_model"
    ∧ (finalModel bertTrainingArguments history last ∈ history
        ∧ ∀ r ∈ history,
            r.accuracy ≤ (finalModel bertTrainingArguments history last).accuracy)
    ∧ (finalModel qloraTrainingArguments history last ∈ history
        ∧ ∀ r ∈ history,
            r.accuracy ≤ (finalModel qloraTrainingArguments history last).accuracy)
    ∧ bestCheckpoint bertTrainingArguments bertRunHistory = some ⟨80, 1⟩ := by
  have hgb : greater_is_better bertTrainingArguments = true := by decide
  have hgq : greater_is_better qloraTrainingArguments = true := by decide
  refine ⟨rfl, rfl, rfl, rfl, rfl, rfl,
    finalModel_max bertTrainingArguments rfl hgb history last h,
    finalModel_max qloraTrainingArguments rfl hgq history last h, ?_⟩
  simp only [bestCheckpoint, hgb, bertRunHistory, List.foldl_cons,
    List.foldl_nil, updateBest, if_true]
  norm_num

/-- Witness for C5 at the bert run's recorded history. -/
theorem best_accuracy_checkpoint_persisted_witness :
    finalModel bertTrainingArguments bertRunHistory ⟨100, 1⟩ ∈ bertRunHistory := by
  have h := best_accuracy_checkpoint_persisted bertRunHistory ⟨100, 1⟩
    (by simp [bertRunHistory])
  exact h.2.2.2.2.2.2.1.1

/-- C6: each completed notebook executes the pipeline steps in the stated
linear order — load dataset, instantiate model (reading the 4-bit
quantization configuration in the QLoRA notebook), optionally wrap with the
adapter, construct the trainer, train, save — and every step consumes only
values produced by earlier steps. -/
theorem notebooks_execute_linear_pipeline :
    pipelineOrder bertSteps =
      [.loadDataset, .instantiateModel, .constructTrainer, .train,
       .saveCheckpoint]
    ∧ pipelineOrder qloraSteps =
      [.loadDataset, .instantiateModel, .wrapAdapter, .constructTrainer,
       .train, .saveCheckpoint]
    ∧ (∃ s ∈ qloraSteps, s.kind = .instantiateModel
        ∧ Value.bnbConfig ∈ s.reads)
    ∧ consumesOnlyEarlier bertSteps
    ∧ consumesOnlyEarlier qloraSteps := by
  decide

/-- C7: the dataset object is only read and passed into the `Trainer`
constructor, nothing mutates the dataset or checkpoint entities, and the
only data-entity locations the scripts carry are the dataset directory and
the checkpoint output directory (with its best_model subdirectory). -/
theorem repository_moves_only_entity_paths :
    datasetReadOnly bertSteps
    ∧ datasetReadOnly qloraSteps
    ∧ datasetReadOnly qloraDraftSteps
    ∧ entityPathsOf bertSteps =
        ["../tokenized_dataset", "../bert-models", "../bert-models/best_model"]
    ∧ entityPathsOf qloraSteps =
        ["../tokenized_dataset", "../qlora-models",
         "../qlora-models/best_model"]
    ∧ entityPathsOf qloraDraftSteps = ["../tokenized_dataset", "/results"] := by
  decide

/-- C8: no step of any script synchronizes, spawns a thread or process, or
manages a resource lifetime, and the concurrency-relevant quantities
(per-device batch sizes, gradient-accumulation steps) occur only in the
`TrainingArguments` constructions, with the values the notebooks pass. -/
theorem no_concurrency_no_resource_management :
    noConcurrencyPrimitives bertSteps
    ∧ noConcurrencyPrimitives qloraSteps
    ∧ noConcurrencyPrimitives qloraDraftSteps
    ∧ (bertSteps.map Step.concurrencyConfig).flatten =
        [(.perDeviceTrainBatchSize, 8), (.perDeviceEvalBatchSize, 8)]
    ∧ (qloraSteps.map Step.concurrencyConfig).flatten =
        [(.perDeviceTrainBatchSize, 8), (.perDeviceEvalBatchSize, 8),
         (.gradientAccumulationSteps, 8)]
    ∧ (qloraDraftSteps.map Step.concurrencyConfig).flatten =
        [(.perDeviceTrainBatchSize, 8), (.perDeviceEvalBatchSize, 8)] := by
  decide

end DriverIntent
